import Mathlib

/-!
Verification of the validation/orchestration engine of the
vscode-integrator repository, as a shallow embedding of the TypeScript
source.

Embedded source files:
* `src/utils/ValidationUtils.ts` — result constructors, `validatePort`,
  `calculateSummary`.
* `src/utils/DockerUtils.ts` — `runDockerCommand` (the container runtime
  adapter's uniform result shape).
* `src/services/DevContainerValidator.ts` — the gated container pipeline
  (`validateSetup`), the test stage (`runTests`), and the heuristic
  test-output interpreter (`parseTestOutput`).
* `src/services/VSCodeIntegrationValidator.ts` — the cross-validation
  pass (`performCrossValidation`).

Modelling conventions: `Date` timestamps, durations and the free-form
`metadata` record are dropped (no claim inspects them); external effects
(file existence, JSON parse success, Docker process outcomes) are passed
in explicitly as environment records; JavaScript string truthiness is
modelled where the source relies on it (`isTruthy`); JS regular
expressions are modelled by direct leftmost-match scanners with the same
semantics on the relevant character classes (`\d` = ASCII digits, `\s` ⊇
ASCII whitespace, `.` excludes line terminators, lazy `*?`, greedy `+`
over disjoint classes).
-/

/-- Severity of a validation error (`'error' | 'critical'` in the source). -/
inductive Severity where
  | error
  | critical
deriving DecidableEq, Repr, BEq

/-- Model of `ValidationError` from `ValidationTypes.ts`; the optional
file/line/column location and `context` are dropped (the embedded calls
below never pass them). -/
structure ValidationError where
  code : String
  message : String
  severity : Severity
deriving DecidableEq, Repr

/-- Model of `ValidationWarning` from `ValidationTypes.ts` (location dropped as above). -/
structure ValidationWarning where
  code : String
  message : String
  suggestion : Option String
deriving DecidableEq, Repr

/-- Model of `ValidationResult` from `ValidationTypes.ts`; `errors`/`warnings` are
optional lists exactly as in the source (`undefined` = `none`), and the
`timestamp`/`metadata` fields are dropped. -/
structure ValidationResult where
  success : Bool
  message : String
  errors : Option (List ValidationError)
  warnings : Option (List ValidationWarning)
deriving DecidableEq, Repr

/-- Source `ValidationUtils.createSuccessResult`: `success: true`, no error or
warning lists (the `metadata` argument is dropped). -/
def createSuccessResult (message : String) : ValidationResult :=
  { success := true, message := message, errors := none, warnings := none }

/-- Source `ValidationUtils.createFailureResult`: `success: false` with the given
error list and optional warning list. -/
def createFailureResult (message : String) (errors : List ValidationError)
    (warnings : Option (List ValidationWarning)) : ValidationResult :=
  { success := false, message := message, errors := some errors, warnings := warnings }

/-- Source `ValidationUtils.createError` (location/context arguments dropped). -/
def createError (code : String) (message : String) (severity : Severity) : ValidationError :=
  { code := code, message := message, severity := severity }

/-- Source `ValidationUtils.createWarning` (location argument dropped). -/
def createWarning (code : String) (message : String) (suggestion : Option String) :
    ValidationWarning :=
  { code := code, message := message, suggestion := suggestion }

/-- Source `ValidationUtils.validatePort`. The TS `number` argument is modelled
as a rational so that the `Number.isInteger` guard is meaningful
(`p.den = 1` iff the number is an integer). -/
def validatePort (port : ℚ) : Option ValidationError :=
  if ¬(port.den = 1) ∨ port < 1 ∨ port > 65535 then
    some (createError "INVALID_PORT"
      ("Invalid port number: " ++ toString port ++ ". Port must be between 1 and 65535")
      Severity.error)
  else if port < 1024 then
    some (createError "PRIVILEGED_PORT"
      ("Port " ++ toString port ++ " requires elevated privileges (ports below 1024)")
      Severity.error)
  else
    none

/-- Summary statistics returned by `ValidationUtils.calculateSummary`. -/
structure SummaryStats where
  total : Nat
  passed : Nat
  failed : Nat
  errorCount : Nat
  warningCount : Nat
deriving DecidableEq, Repr

/-- One step of the accumulation loop in `ValidationUtils.calculateSummary`:
`passed`/`failed` are bumped by `result.success`, and `errors?.length || 0`
(resp. warnings) is added to the running counts. -/
def summaryStep (acc : SummaryStats) (r : ValidationResult) : SummaryStats :=
  { acc with
    passed := if r.success then acc.passed + 1 else acc.passed
    failed := if r.success then acc.failed else acc.failed + 1
    errorCount := acc.errorCount + (r.errors.getD []).length
    warningCount := acc.warningCount + (r.warnings.getD []).length }

/-- Source `ValidationUtils.calculateSummary`: the loop over `results`, with
`total := results.length`. -/
def calculateSummary (results : List ValidationResult) : SummaryStats :=
  let acc := results.foldl summaryStep
    { total := 0, passed := 0, failed := 0, errorCount := 0, warningCount := 0 }
  { acc with total := results.length }

/-!
Section: The test-output interpreter (`DevContainerValidator.parseTestOutput`)

The four JS regex probes are modelled as explicit leftmost-match scanners
over `List Char`.  In every probe the quantified sub-patterns (`\d+`,
`\s+`) are followed by characters of a disjoint class, so greedy maximal
munch coincides with the backtracking semantics; the lazy `.*?` is the
shortest expansion over non-line-terminator characters whose continuation
matches.
-/

/-- JS `\s` restricted to its ASCII members (space, tab, line feed,
carriage return, vertical tab, form feed). -/
def isJsWs (c : Char) : Bool :=
  c == ' ' || c == '\t' || c == '\n' || c == '\r' || c.toNat == 11 || c.toNat == 12

/-- Strip an expected literal from the front of the input. -/
def stripLit : List Char → List Char → Option (List Char)
  | [], cs => some cs
  | _ :: _, [] => none
  | l :: ls, c :: cs => if c == l then stripLit ls cs else none

/-- Accumulate a decimal value over a maximal run of digits (JS `parseInt`
on the captured digits). -/
def munchDigits (acc : Nat) : List Char → Nat × List Char
  | [] => (acc, [])
  | c :: cs =>
    if c.isDigit then munchDigits (acc * 10 + (c.toNat - 48)) cs else (acc, c :: cs)

/-- Pattern `(\d+)`: at least one digit, maximal munch, returning its value. -/
def readNat : List Char → Option (Nat × List Char)
  | [] => none
  | c :: cs => if c.isDigit then some (munchDigits 0 (c :: cs)) else none

/-- Pattern `\s+`: at least one whitespace character, maximal munch. -/
def skipWs1 : List Char → Option (List Char)
  | [] => none
  | c :: cs => if isJsWs c then some (cs.dropWhile isJsWs) else none

/-- Match the Jest regex `Tests:\s+(\d+)\s+failed,\s+(\d+)\s+passed,\s+(\d+)\s+total`
anchored at the head of the input, returning (failed, passed, total). -/
def matchJestAt (cs : List Char) : Option (Nat × Nat × Nat) := do
  let cs ← stripLit "Tests:".data cs
  let cs ← skipWs1 cs
  let (f, cs) ← readNat cs
  let cs ← skipWs1 cs
  let cs ← stripLit "failed,".data cs
  let cs ← skipWs1 cs
  let (p, cs) ← readNat cs
  let cs ← skipWs1 cs
  let cs ← stripLit "passed,".data cs
  let cs ← skipWs1 cs
  let (t, cs) ← readNat cs
  let cs ← skipWs1 cs
  let _ ← stripLit "total".data cs
  pure (f, p, t)

/-- Leftmost match of the Jest probe over the whole input. -/
def findJest (cs : List Char) : Option (Nat × Nat × Nat) :=
  match matchJestAt cs with
  | some r => some r
  | none =>
    match cs with
    | [] => none
    | _ :: cs' => findJest cs'

/-- The continuation `(\d+)\s+<lit>` anchored at the head of the input. -/
def tryNumLit (lit : List Char) (cs : List Char) : Option Nat := do
  let (n, cs) ← readNat cs
  let cs ← skipWs1 cs
  let _ ← stripLit lit cs
  pure n

/-- The lazy tail `.*?(\d+)\s+<lit>`: the shortest expansion of `.*?`
(which cannot cross a line terminator, JS `.` without the dotall flag)
whose continuation matches. -/
def findCountBefore (lit : List Char) : List Char → Option Nat
  | [] => none
  | c :: cs' =>
    match tryNumLit lit (c :: cs') with
    | some n => some n
    | none => if c == '\n' || c == '\r' then none else findCountBefore lit cs'

/-- Match the Mocha regex `(\d+)\s+passing.*?(\d+)\s+failing` anchored at
the head of the input, returning (passing, failing). -/
def matchMochaAt (cs : List Char) : Option (Nat × Nat) := do
  let (p, cs) ← readNat cs
  let cs ← skipWs1 cs
  let cs ← stripLit "passing".data cs
  let f ← findCountBefore "failing".data cs
  pure (p, f)

/-- Leftmost match of the Mocha probe over the whole input. -/
def findMocha (cs : List Char) : Option (Nat × Nat) :=
  match matchMochaAt cs with
  | some r => some r
  | none =>
    match cs with
    | [] => none
    | _ :: cs' => findMocha cs'

/-- Match the pytest regex `(\d+)\s+passed.*?(\d+)\s+failed` anchored at
the head of the input, returning (passed, failed). -/
def matchPytestAt (cs : List Char) : Option (Nat × Nat) := do
  let (p, cs) ← readNat cs
  let cs ← skipWs1 cs
  let cs ← stripLit "passed".data cs
  let f ← findCountBefore "failed".data cs
  pure (p, f)

/-- Leftmost match of the pytest probe over the whole input. -/
def findPytest (cs : List Char) : Option (Nat × Nat) :=
  match matchPytestAt cs with
  | some r => some r
  | none =>
    match cs with
    | [] => none
    | _ :: cs' => findPytest cs'

/-- The Go probe `/PASS|FAIL/g`: left-to-right non-overlapping scan,
returning (number of `PASS` tokens, number of `FAIL` tokens). -/
def countTokens : List Char → Nat × Nat
  | c1 :: c2 :: c3 :: c4 :: rest =>
    if c1 == 'P' && c2 == 'A' && c3 == 'S' && c4 == 'S' then
      let (p, f) := countTokens rest
      (p + 1, f)
    else if c1 == 'F' && c2 == 'A' && c3 == 'I' && c4 == 'L' then
      let (p, f) := countTokens rest
      (p, f + 1)
    else
      countTokens (c2 :: c3 :: c4 :: rest)
  | _ => (0, 0)

/-- Model of `TestCounts` (`{total, passed, failed, skipped}` in the spec; the
local variables of `parseTestOutput` in the source). -/
structure TestCounts where
  totalTests : Nat
  passedTests : Nat
  failedTests : Nat
  skippedTests : Nat
deriving DecidableEq, Repr

/-- Source `DevContainerValidator.parseTestOutput`: the four probes are applied
in order (Jest, Mocha, pytest, PASS/FAIL tokens); each of the first three
overwrites the counts wholesale when it matches, while the token probe
increments the running counts per token.  `skippedTests` is never
assigned. -/
def parseTestOutput (output : String) : TestCounts :=
  let cs := output.data
  let s0 : Nat × Nat × Nat := (0, 0, 0)
  let s1 :=
    match findJest cs with
    | some (f, p, t) => (t, p, f)
    | none => s0
  let s2 :=
    match findMocha cs with
    | some (p, f) => (p + f, p, f)
    | none => s1
  let s3 :=
    match findPytest cs with
    | some (p, f) => (p + f, p, f)
    | none => s2
  let (gp, gf) := countTokens cs
  let s4 := if gp + gf > 0 then (s3.1 + (gp + gf), s3.2.1 + gp, s3.2.2 + gf) else s3
  { totalTests := s4.1, passedTests := s4.2.1, failedTests := s4.2.2, skippedTests := 0 }

/-- The counts left by whichever of the three summary probes (Jest, Mocha,
pytest) is applied last among those that match, as (total, passed, failed);
all zero when none matches. -/
def lastSummaryProbe (cs : List Char) : Nat × Nat × Nat :=
  match findPytest cs with
  | some (p, f) => (p + f, p, f)
  | none =>
    match findMocha cs with
    | some (p, f) => (p + f, p, f)
    | none =>
      match findJest cs with
      | some (f, p, t) => (t, p, f)
      | none => (0, 0, 0)

/-!
Section: The container runtime adapter (`DockerUtils.runDockerCommand`)
-/

/-- Outcome of the underlying `spawn` call: either the `close` event fires
with an exit code (`null` when the process was terminated by a signal), or
the `error` event fires (e.g. the runtime binary is missing). -/
inductive SpawnOutcome where
  | closed (code : Option Int) (stdout : String) (stderr : String)
  | errored (message : String)
deriving DecidableEq, Repr

/-- Model of `DockerCommandResult` from `DockerUtils.ts`. -/
structure DockerCommandResult where
  success : Bool
  stdout : String
  stderr : String
  exitCode : Int
deriving DecidableEq, Repr

/-- Source `DockerUtils.runDockerCommand`: on `close`, `success := code === 0`,
trimmed output streams, `exitCode := code || 0` (JS `||`: `null` and `0`
both give `0`); on `error`, the fixed `{success: false, stdout: '',
stderr: error.message, exitCode: -1}` shape. -/
def runDockerCommand : SpawnOutcome → DockerCommandResult
  | SpawnOutcome.closed code out err =>
    { success := code == some 0
      stdout := out.trim
      stderr := err.trim
      exitCode := match code with | some c => c | none => 0 }
  | SpawnOutcome.errored msg =>
    { success := false, stdout := "", stderr := msg, exitCode := -1 }

/-!
Section: The test stage (`DevContainerValidator.runTests`)
-/

/-- Model of `TestResult` from `ValidationTypes.ts` as used by `runTests`
(`testOutput` and `duration` dropped — no claim inspects them). -/
structure TestResult where
  success : Bool
  totalTests : Nat
  passedTests : Nat
  failedTests : Nat
  skippedTests : Nat
  errors : Option (List String)
deriving DecidableEq, Repr

/-- JS `split('\n')`: split into lines at every line feed, keeping empty
pieces (structural, unlike `String.splitOn`, so that it reduces inside the
kernel). -/
def splitLines : List Char → List (List Char)
  | [] => [[]]
  | c :: rest =>
    match splitLines rest with
    | [] => [[]]
    | l :: ls => if c == '\n' then [] :: l :: ls else (c :: l) :: ls

/-- JS `String.trim` on a character list: drop whitespace from both ends. -/
def jsTrim (cs : List Char) : List Char :=
  ((cs.dropWhile isJsWs).reverse.dropWhile isJsWs).reverse

/-- Source `result.stderr.split('\n').filter(line => line.trim())`: the non-blank
lines of a captured stream. -/
def nonEmptyLines (s : String) : List String :=
  ((splitLines s.data).filter (fun l => !(jsTrim l).isEmpty)).map (fun l => String.mk l)

/-- Source `DevContainerValidator.runTests`, with the Docker effects supplied as
arguments: `imageExists` is the `DockerUtils.imageExists` probe and `run`
the `DockerUtils.runInContainer` result.  A missing image throws into the
catch block; a failed run whose parsed `failedTests` is zero throws
`'Test execution failed'` into the catch block; otherwise the stage
returns the parsed counts with `success := failedTests === 0`. -/
def runTests (imageExists : Bool) (run : DockerCommandResult) : TestResult :=
  if !imageExists then
    { success := false, totalTests := 0, passedTests := 0, failedTests := 0, skippedTests := 0,
      errors := some ["Container image not found. Please build the container first."] }
  else
    let counts := parseTestOutput run.stdout
    if !run.success && counts.failedTests == 0 then
      { success := false, totalTests := 0, passedTests := 0, failedTests := 0, skippedTests := 0,
        errors := some (nonEmptyLines run.stderr ++ ["Test execution failed"]) }
    else
      { success := counts.failedTests == 0
        totalTests := counts.totalTests
        passedTests := counts.passedTests
        failedTests := counts.failedTests
        skippedTests := counts.skippedTests
        errors := none }

/-!
Section: The gated container pipeline (`DevContainerValidator.validateSetup`)
-/

/-- JavaScript truthiness of an optional string field (`undefined` and the
empty string are falsy). -/
def isTruthy : Option String → Bool
  | none => false
  | some s => s ≠ ""

/-- A JSON field that may be absent, present as a (truthy) non-array
value, or present as an array. -/
inductive ConfigField (α : Type) where
  | absent
  | nonArray
  | array (xs : List α)
deriving DecidableEq, Repr

/-- The parts of `DevContainerConfig` that `validateSetup` inspects:
`image`, `dockerFile`, `build.dockerfile`, `customizations.vscode.extensions`
(only its array-ness matters) and `forwardPorts`. -/
structure DevContainerConfig where
  image : Option String
  dockerFile : Option String
  buildDockerfile : Option String
  extensions : ConfigField Unit
  forwardPorts : ConfigField ℚ
deriving DecidableEq, Repr

/-- Environment of one `validateSetup` run: the configuration document and
the outcomes of every external effect the pipeline consults.  A build or
compile outcome of `none` is success; `some (prior, msg)` is the failure
path, whose error list is the stderr lines pushed before the throw
followed by the thrown message (always non-empty, as in the source's
catch blocks). -/
structure PipelineEnv where
  configFileExists : Bool
  configParses : Bool
  configParseMsg : String
  config : DevContainerConfig
  dockerAvailable : Bool
  dockerfileExists : Bool
  dockerfileParses : Bool
  dockerfileParseMsg : String
  dockerfileBaseImage : Option String
  dockerfileWorkdir : Option String
  buildOutcome : Option (List String × String)
  compileOutcome : Option (List String × String)
  testImageExists : Bool
  testRun : DockerCommandResult
deriving DecidableEq, Repr

/-- Source `DevContainerValidator.validateDevContainerConfig`: missing file and
parse failure each yield one CRITICAL error; otherwise errors accumulate
from the Docker-configuration presence check (CRITICAL), the extensions
array check, and per-port validation, and the result fails iff any
accumulated. -/
def validateDevContainerConfig (env : PipelineEnv) : ValidationResult :=
  if !env.configFileExists then
    createFailureResult "DevContainer configuration missing"
      [createError "DEVCONTAINER_NOT_FOUND" "devcontainer.json file not found" Severity.critical]
      none
  else if !env.configParses then
    createFailureResult "Failed to validate DevContainer configuration"
      [createError "CONFIG_PARSE_ERROR" env.configParseMsg Severity.critical] none
  else
    let errors :=
      (if !isTruthy env.config.image && !isTruthy env.config.dockerFile
          && !isTruthy env.config.buildDockerfile then
        [createError "NO_DOCKER_CONFIG"
          "No Docker configuration found (image, dockerFile, or build.dockerfile required)"
          Severity.critical]
      else [])
      ++ (match env.config.extensions with
        | ConfigField.nonArray =>
          [createError "INVALID_EXTENSIONS_FORMAT" "VSCode extensions must be an array"
            Severity.error]
        | _ => [])
      ++ (match env.config.forwardPorts with
        | ConfigField.absent => []
        | ConfigField.nonArray =>
          [createError "INVALID_PORTS_FORMAT" "forwardPorts must be an array" Severity.error]
        | ConfigField.array ports => ports.filterMap validatePort)
    if errors = [] then createSuccessResult "DevContainer configuration is valid"
    else createFailureResult "DevContainer configuration has errors" errors none

/-- Source `DevContainerValidator.validateDockerEnvironment` (the
`getDockerInfo` call never throws, so the catch branch is dead). -/
def validateDockerEnvironment (dockerAvailable : Bool) : ValidationResult :=
  if !dockerAvailable then
    createFailureResult "Docker environment not available"
      [createError "DOCKER_NOT_AVAILABLE" "Docker is not installed or not running"
        Severity.critical]
      none
  else
    createSuccessResult "Docker environment is valid"

/-- Source `DevContainerValidator.validateDockerfile`: no referenced Dockerfile
is a success; a missing or unreadable file fails; otherwise a missing FROM
line is a CRITICAL error and a missing WORKDIR a warning (the warning is
attached only on the failure path, as in the source). -/
def validateDockerfile (env : PipelineEnv) : ValidationResult :=
  let dfReferenced := isTruthy env.config.dockerFile || isTruthy env.config.buildDockerfile
  if !dfReferenced then
    createSuccessResult "No Dockerfile to validate (using base image)"
  else if !env.dockerfileExists then
    createFailureResult "Dockerfile not found"
      [createError "DOCKERFILE_NOT_FOUND" "Dockerfile not found" Severity.critical] none
  else if !env.dockerfileParses then
    createFailureResult "Failed to validate Dockerfile"
      [createError "DOCKERFILE_PARSE_ERROR" env.dockerfileParseMsg Severity.error] none
  else
    let errors :=
      if env.dockerfileBaseImage = none then
        [createError "NO_BASE_IMAGE" "Dockerfile must specify a FROM directive" Severity.critical]
      else []
    let warnings :=
      if env.dockerfileWorkdir = none then
        [createWarning "NO_WORKDIR" "Consider setting WORKDIR in Dockerfile"
          (some "Add WORKDIR /workspace to set the working directory")]
      else []
    if errors = [] then createSuccessResult "Dockerfile is valid"
    else createFailureResult "Dockerfile validation failed" errors (some warnings)

/-- Steps 4–6 of `validateSetup` (build, compile, test), which run only
when steps 1–2 both succeeded; returns the stage results together with
the recommendations pushed in those branches. -/
def setupStages456 (env : PipelineEnv) : List ValidationResult × List String :=
  if (validateDockerEnvironment env.dockerAvailable).success
      && (validateDevContainerConfig env).success then
    match env.buildOutcome with
    | some (prior, msg) =>
      ([createFailureResult "Container build failed"
          ((prior ++ [msg]).map (fun e => createError "BUILD_ERROR" e Severity.error)) none],
       ["Fix container build issues before proceeding with compilation and tests"])
    | none =>
      let buildR := createSuccessResult "Container built successfully"
      match env.compileOutcome with
      | some (prior, msg) =>
        ([buildR,
          createFailureResult "Compilation failed"
            ((prior ++ [msg]).map (fun e => createError "COMPILATION_ERROR" e Severity.error))
            none],
         ["Fix compilation errors before running tests"])
      | none =>
        let compileR := createSuccessResult "Compilation successful"
        let t := runTests env.testImageExists env.testRun
        let testR :=
          if t.success then
            createSuccessResult ("All " ++ toString t.totalTests ++ " tests passed")
          else
            createFailureResult
              (toString t.failedTests ++ " of " ++ toString t.totalTests ++ " tests failed")
              ((t.errors.getD []).map (fun e => createError "TEST_FAILURE" e Severity.error))
              none
        ([buildR, compileR, testR], [])
  else ([], [])

/-- The per-stage results of one `validateSetup` run, in push order:
config validation, Docker environment (unconditionally), Dockerfile
inspection (only if config validation succeeded), then stages 4–6. -/
def setupResults (env : PipelineEnv) : List ValidationResult :=
  validateDevContainerConfig env
    :: validateDockerEnvironment env.dockerAvailable
    :: ((if (validateDevContainerConfig env).success then [validateDockerfile env] else [])
        ++ (setupStages456 env).1)

/-- Model of `ValidationReport` (`validator`, `timestamp`, `duration` dropped). -/
structure ValidationReport where
  results : List ValidationResult
  totalChecks : Nat
  passed : Nat
  failed : Nat
  warnings : Nat
  recommendations : Option (List String)
deriving DecidableEq, Repr

/-- Source `DevContainerValidator.validateSetup`: runs the gated stages, folds
the summary with `calculateSummary`, and assembles the recommendations in
push order. -/
def validateSetup (env : PipelineEnv) : ValidationReport :=
  let results := setupResults env
  let s := calculateSummary results
  let recommendations :=
    (if (validateDevContainerConfig env).success then []
     else ["Fix devcontainer.json configuration before proceeding"])
    ++ (if (validateDockerEnvironment env.dockerAvailable).success then []
        else ["Ensure Docker is installed and running"])
    ++ (setupStages456 env).2
    ++ (if s.warningCount > 0 then
          ["Address " ++ toString s.warningCount ++ " warnings to improve container setup"]
        else [])
  { results := results
    totalChecks := s.total
    passed := s.passed
    failed := s.failed
    warnings := s.warningCount
    recommendations := if recommendations = [] then none else some recommendations }

/-!
Section: Cross-validation (`VSCodeIntegrationValidator.performCrossValidation`)
-/

/-- A `launch.json` configuration entry (the fields cross-validation
reads). -/
structure LaunchEntry where
  name : String
  preLaunchTask : Option String
deriving DecidableEq, Repr

/-- A `tasks.json` task entry (the field cross-validation reads). -/
structure TaskEntry where
  label : String
deriving DecidableEq, Repr

/-- Environment of one `performCrossValidation` run: which of the three
documents exist, whether each read parses (a parse throw lands in the
catch-all branch), their contents, and the number of truthy formatter
settings. -/
structure CrossEnv where
  launchExists : Bool
  launchParses : Bool
  launchConfigs : Option (List LaunchEntry)
  tasksExists : Bool
  tasksParses : Bool
  tasks : Option (List TaskEntry)
  settingsExists : Bool
  settingsParses : Bool
  formatterCount : Nat
  parseErrorMsg : String
deriving DecidableEq, Repr

/-- The task label set collected by cross-validation: labels of
`tasks.json` entries whose `label` is truthy, empty when the file does not
exist.  Membership in this list models `Set.has`. -/
def taskLabels (env : CrossEnv) : List String :=
  if env.tasksExists then
    ((env.tasks.getD []).filter (fun t => t.label ≠ "")).map (fun t => t.label)
  else []

/-- The interpolated message of a `MISSING_PRELAUNCH_TASK` error, naming
the launch entry and the missing task label. -/
def missingTaskMsg (name : String) (task : String) : String :=
  "Launch configuration \x22" ++ name ++ "\x22 references non-existent task \x22"
    ++ task ++ "\x22"

/-- Whether a launch entry's `preLaunchTask` is truthy and absent from the
task label set. -/
def isDangling (env : CrossEnv) (c : LaunchEntry) : Bool :=
  match c.preLaunchTask with
  | some p => p ≠ "" && !((taskLabels env).contains p)
  | none => false

/-- The `MISSING_PRELAUNCH_TASK` errors pushed by cross-validation: one
per launch entry whose `preLaunchTask` reference is dangling, collected
only when `launch.json` exists. -/
def crossValidationErrors (env : CrossEnv) : List ValidationError :=
  if env.launchExists then
    (env.launchConfigs.getD []).filterMap (fun c =>
      match c.preLaunchTask with
      | some p =>
        if p ≠ "" && !((taskLabels env).contains p) then
          some (createError "MISSING_PRELAUNCH_TASK" (missingTaskMsg c.name p) Severity.error)
        else none
      | none => none)
  else []

/-- The `MULTIPLE_FORMATTERS` warning pushed when `settings.json` exists
and more than one formatter setting is truthy. -/
def crossValidationWarnings (env : CrossEnv) : List ValidationWarning :=
  if env.settingsExists && env.formatterCount > 1 then
    [createWarning "MULTIPLE_FORMATTERS" "Multiple formatters may be configured"
      (some "Consider using only one formatter to avoid conflicts")]
  else []

/-- Source `VSCodeIntegrationValidator.performCrossValidation`: a JSON-parse
throw from any of the three document reads lands in the catch-all branch
(one `CROSS_VALIDATION_ERROR`); otherwise failure iff any
`MISSING_PRELAUNCH_TASK` error accumulated, with the formatter warning
attached on the failure path. -/
def performCrossValidation (env : CrossEnv) : ValidationResult :=
  if (env.launchExists && !env.launchParses)
      || (env.launchExists && env.tasksExists && !env.tasksParses)
      || (env.settingsExists && !env.settingsParses) then
    createFailureResult "Cross-validation failed"
      [createError "CROSS_VALIDATION_ERROR" env.parseErrorMsg Severity.error] none
  else
    let errors := crossValidationErrors env
    let warnings := crossValidationWarnings env
    if errors = [] then createSuccessResult "Cross-validation passed"
    else createFailureResult "Cross-validation found issues" errors (some warnings)

/-!
Part: Concrete environments used by counterexamples and witnesses
-/

/-- Environment for claim C1: a fully healthy pipeline whose test run
exits zero but whose captured output contains one `FAIL` token, so the
test stage fails on extracted counts with no error strings. -/
def envC1 : PipelineEnv :=
  { configFileExists := true, configParses := true, configParseMsg := ""
    config := { image := some "node:18", dockerFile := none, buildDockerfile := none,
                extensions := ConfigField.absent, forwardPorts := ConfigField.absent }
    dockerAvailable := true
    dockerfileExists := true, dockerfileParses := true, dockerfileParseMsg := ""
    dockerfileBaseImage := some "node:18", dockerfileWorkdir := some "/workspace"
    buildOutcome := none, compileOutcome := none
    testImageExists := true
    testRun := { success := true, stdout := "FAIL", stderr := "", exitCode := 0 } }

/-- Environment for claim C2: the configuration document exists and
parses but names none of image, dockerFile, or build.dockerfile; Docker
itself is available. -/
def envC2 : PipelineEnv :=
  { configFileExists := true, configParses := true, configParseMsg := ""
    config := { image := none, dockerFile := none, buildDockerfile := none,
                extensions := ConfigField.absent, forwardPorts := ConfigField.absent }
    dockerAvailable := true
    dockerfileExists := true, dockerfileParses := true, dockerfileParseMsg := ""
    dockerfileBaseImage := none, dockerfileWorkdir := none
    buildOutcome := none, compileOutcome := none
    testImageExists := true
    testRun := { success := true, stdout := "", stderr := "", exitCode := 0 } }

/-- Environment for claim C3: the test process exits non-zero while its
output carries an explicit `failed: 0` Jest summary. -/
def runC3 : DockerCommandResult :=
  { success := false, stdout := "Tests: 0 failed, 5 passed, 5 total", stderr := "",
    exitCode := 1 }

/-- Environment for claim C9: `launch.json` has one entry whose
`preLaunchTask` names `build`, and no `tasks.json` exists. -/
def envC9 : CrossEnv :=
  { launchExists := true, launchParses := true
    launchConfigs := some [{ name := "Debug", preLaunchTask := some "build" }]
    tasksExists := false, tasksParses := true, tasks := none
    settingsExists := false, settingsParses := true
    formatterCount := 0, parseErrorMsg := "" }

/-- Whether a result carries at least one CRITICAL-severity error (a
"CRITICAL result" in the spec's wording). -/
def hasCriticalError (r : ValidationResult) : Bool :=
  (r.errors.getD []).any (fun e => e.severity == Severity.critical)

/-!
Part: Claim theorems
-/

/-- Claim C10 (confirmed): for every input text the interpreter returns
`skipped = 0`: no probe of `parseTestOutput` ever assigns the skipped
count. -/
theorem parseTestOutput_skipped_always_zero (s : String) :
    (parseTestOutput s).skippedTests = 0 := rfl

/-- Claim C4 (code bug): of the spec's three interpreter examples, the
Jest triple and the PASS/FAIL token stream behave as stated, but the
two-line Mocha example yields all-zero counts, because the `.*?` in the
Mocha regex cannot cross the newline (the regex lacks the dotall flag);
the same pair on a single line does yield `{17, 15, 2}`. -/
theorem parseTestOutput_spec_examples :
    parseTestOutput "Tests: 2 failed, 8 passed, 10 total"
        = { totalTests := 10, passedTests := 8, failedTests := 2, skippedTests := 0 } ∧
    parseTestOutput "15 passing (3s)\n2 failing"
        = { totalTests := 0, passedTests := 0, failedTests := 0, skippedTests := 0 } ∧
    parseTestOutput "15 passing (3s) 2 failing"
        = { totalTests := 17, passedTests := 15, failedTests := 2, skippedTests := 0 } ∧
    parseTestOutput "PASS ok\nPASS ok\nPASS ok\nFAIL bad"
        = { totalTests := 4, passedTests := 3, failedTests := 1, skippedTests := 0 } := by
  refine ⟨by decide, by decide, by decide, by decide⟩

/-- Claim C5 counterexample: on `"1 passing x 1 failing\nPASS"` both the
Mocha probe and the PASS/FAIL token probe match; the token probe is
applied last, yet the final counts `{3, 2, 1}` are not those the token
probe alone would produce (`{1, 1, 0}`, as on the input `"PASS"`): the
token probe accumulates on top of the Mocha counts instead of
overwriting them. -/
theorem tokenProbe_accumulates_counterexample :
    findMocha ("1 passing x 1 failing\nPASS").data = some (1, 1) ∧
    countTokens ("1 passing x 1 failing\nPASS").data = (1, 0) ∧
    parseTestOutput "1 passing x 1 failing\nPASS"
        = { totalTests := 3, passedTests := 2, failedTests := 1, skippedTests := 0 } ∧
    parseTestOutput "PASS"
        = { totalTests := 1, passedTests := 1, failedTests := 0, skippedTests := 0 } ∧
    parseTestOutput "1 passing x 1 failing\nPASS"
        ≠ { totalTests := 1, passedTests := 1, failedTests := 0, skippedTests := 0 } := by
  refine ⟨by decide, by decide, by decide, by decide, by decide⟩

/-- Claim C5 as amended (proved): among the three summary probes (Jest,
Mocha, pytest) the one applied last overwrites earlier counts wholesale,
but the PASS/FAIL token probe adds its per-token tallies to whatever
counts the summary probes left rather than replacing them. -/
theorem parseTestOutput_last_probe_decomposition (s : String) :
    parseTestOutput s
      = { totalTests :=
            (lastSummaryProbe s.data).1 + (countTokens s.data).1 + (countTokens s.data).2
          passedTests := (lastSummaryProbe s.data).2.1 + (countTokens s.data).1
          failedTests := (lastSummaryProbe s.data).2.2 + (countTokens s.data).2
          skippedTests := 0 } := by
  unfold parseTestOutput lastSummaryProbe
  rcases hg : countTokens s.data with ⟨gp, gf⟩
  rcases hpy : findPytest s.data with _ | ⟨p3, f3⟩ <;>
    rcases hmo : findMocha s.data with _ | ⟨p2, f2⟩ <;>
      rcases hje : findJest s.data with _ | ⟨f1, p1, t1⟩ <;>
        simp only [hg, hpy, hmo, hje] <;>
        split <;>
        (simp only [TestCounts.mk.injEq, and_true, true_and]; omega)

/-- Claim C7 counterexample: when the spawned process is terminated by a
signal, the `close` event fires with a `null` exit code; the adapter then
returns `success = false` together with `exitCode = 0` (the `code || 0`
default), so `success` is not equal to `exitCode == 0`. -/
theorem runDockerCommand_signal_counterexample :
    (runDockerCommand (SpawnOutcome.closed none "out" "err")).success = false ∧
    (runDockerCommand (SpawnOutcome.closed none "out" "err")).exitCode = 0 := by
  exact ⟨rfl, rfl⟩

/-- Claim C7 as amended (proved): for every invocation that closes with a
numeric exit code, the result is `{success = (code == 0), stdout/stderr
trimmed, exitCode = code}`; a spawn error yields `{success = false,
stdout = "", stderr = message, exitCode = -1}` without throwing; but a
close without an exit code (signal termination) yields `success = false`
with `exitCode` defaulted to `0`, breaking the `success = (exitCode == 0)`
equivalence only in that case. -/
theorem runDockerCommand_result_shape :
    (∀ (c : Int) (out err : String),
      runDockerCommand (SpawnOutcome.closed (some c) out err)
        = { success := c == 0, stdout := out.trim, stderr := err.trim, exitCode := c }) ∧
    (∀ out err : String,
      runDockerCommand (SpawnOutcome.closed none out err)
        = { success := false, stdout := out.trim, stderr := err.trim, exitCode := 0 }) ∧
    (∀ msg : String,
      runDockerCommand (SpawnOutcome.errored msg)
        = { success := false, stdout := "", stderr := msg, exitCode := -1 }) := by
  refine ⟨fun c out err => ?_, fun out err => rfl, fun msg => rfl⟩
  simp only [runDockerCommand]
  rfl

/-- Claim C8 (confirmed): `validatePort` flags 80 as a privileged port,
accepts 8080, rejects 70000 and 0 as out of range, and in general accepts
a port with no error exactly when it is an integer in [1024, 65535]. -/
theorem validatePort_spec :
    (validatePort 80).map (fun e => e.code) = some "PRIVILEGED_PORT" ∧
    validatePort 8080 = none ∧
    (validatePort 70000).map (fun e => e.code) = some "INVALID_PORT" ∧
    (validatePort 0).map (fun e => e.code) = some "INVALID_PORT" ∧
    ∀ p : ℚ, (validatePort p = none ↔ p.den = 1 ∧ 1024 ≤ p ∧ p ≤ 65535) := by
  refine ⟨by decide, by decide, by decide, by decide, fun p => ?_⟩
  unfold validatePort
  split_ifs with h1 h2
  · simp only [false_iff]
    rintro ⟨hden, hge, hle⟩
    rcases h1 with h | h | h
    · exact h hden
    · linarith
    · linarith
  · simp only [false_iff]
    rintro ⟨hden, hge, hle⟩
    linarith
  · push_neg at h1
    simp only [true_iff]
    exact ⟨h1.1, le_of_not_lt h2, h1.2.2⟩

/-- Claim C3 counterexample: a test run that exits non-zero while its
output carries an explicit extracted `failed` count of 0 is a failure in
the code (the stage throws `'Test execution failed'`), whereas the claim
says extracted counts override the exit code and make this a pass. -/
theorem nonzero_exit_zero_failed_is_failure :
    runC3.success = false ∧ runC3.exitCode = 1 ∧
    (parseTestOutput runC3.stdout).failedTests = 0 ∧
    (parseTestOutput runC3.stdout).passedTests = 5 ∧
    (runTests true runC3).success = false ∧
    (runTests true runC3).errors = some ["Test execution failed"] := by
  refine ⟨rfl, rfl, by decide, by decide, by decide, by decide⟩

/-- Claim C3 as amended (proved): the test stage succeeds iff the image
exists, the runtime invocation itself succeeded, and the extracted failed
count is zero.  Extracted counts never override a failed invocation: a
non-zero exit with extracted `failed = 0` throws into the catch block, and
an extracted `failed > 0` forces failure even on a zero exit. -/
theorem runTests_success_characterization (imageExists : Bool) (run : DockerCommandResult) :
    (runTests imageExists run).success
      = (imageExists && run.success && ((parseTestOutput run.stdout).failedTests == 0)) := by
  cases imageExists <;>
    cases hrs : run.success <;>
      by_cases h : (parseTestOutput run.stdout).failedTests = 0 <;>
        simp [runTests, hrs, h]

/-- The two folded counters of `calculateSummary`'s loop, relative to an
arbitrary initial accumulator: `passed + failed` grows by one per result,
and `warningCount` by each result's warning-list length. -/
theorem summaryStep_foldl_counts (rs : List ValidationResult) (acc : SummaryStats) :
    ((rs.foldl summaryStep acc).passed + (rs.foldl summaryStep acc).failed
        = acc.passed + acc.failed + rs.length) ∧
    (rs.foldl summaryStep acc).warningCount
        = acc.warningCount + (rs.map (fun r => (r.warnings.getD []).length)).sum := by
  induction rs generalizing acc with
  | nil => simp
  | cons r rs ih =>
    simp only [List.foldl_cons, List.length_cons, List.map_cons, List.sum_cons]
    obtain ⟨ih1, ih2⟩ := ih (summaryStep acc r)
    constructor
    · rw [ih1]
      simp only [summaryStep]
      split_ifs <;> omega
    · rw [ih2]
      simp only [summaryStep]
      omega

/-- Claim C6 (confirmed): the summary is an exact fold over the result
list — `passed + failed = results.length`, `total(Checks) =
results.length`, and `warnings` is the sum of the per-result warning-list
lengths (0 when absent) — both for `calculateSummary` on any list and for
the summary block of every `validateSetup` report. -/
theorem summary_exact_fold :
    (∀ rs : List ValidationResult,
      (calculateSummary rs).passed + (calculateSummary rs).failed = rs.length ∧
      (calculateSummary rs).total = rs.length ∧
      (calculateSummary rs).warningCount
          = (rs.map (fun r => (r.warnings.getD []).length)).sum) ∧
    (∀ env : PipelineEnv,
      (validateSetup env).passed + (validateSetup env).failed
          = (validateSetup env).results.length ∧
      (validateSetup env).totalChecks = (validateSetup env).results.length ∧
      (validateSetup env).warnings
          = ((validateSetup env).results.map (fun r => (r.warnings.getD []).length)).sum) := by
  have hmain : ∀ rs : List ValidationResult,
      (calculateSummary rs).passed + (calculateSummary rs).failed = rs.length ∧
      (calculateSummary rs).total = rs.length ∧
      (calculateSummary rs).warningCount
          = (rs.map (fun r => (r.warnings.getD []).length)).sum := by
    intro rs
    obtain ⟨h1, h2⟩ := summaryStep_foldl_counts rs
      { total := 0, passed := 0, failed := 0, errorCount := 0, warningCount := 0 }
    refine ⟨?_, rfl, ?_⟩
    · calc (calculateSummary rs).passed + (calculateSummary rs).failed
          = (rs.foldl summaryStep
              { total := 0, passed := 0, failed := 0, errorCount := 0,
                warningCount := 0 }).passed
            + (rs.foldl summaryStep
                { total := 0, passed := 0, failed := 0, errorCount := 0,
                  warningCount := 0 }).failed := rfl
      _ = rs.length := by rw [h1]; simp
    · calc (calculateSummary rs).warningCount
          = (rs.foldl summaryStep
              { total := 0, passed := 0, failed := 0, errorCount := 0,
                warningCount := 0 }).warningCount := rfl
      _ = (rs.map (fun r => (r.warnings.getD []).length)).sum := by rw [h2]; simp
  refine ⟨hmain, fun env => ?_⟩
  exact ⟨(hmain (setupResults env)).1, (hmain (setupResults env)).2.1,
    (hmain (setupResults env)).2.2⟩

/-- A result built by either constructor satisfies: if it succeeded, it
carries no error list. -/
theorem succ_no_errors_of_ctor (r : ValidationResult)
    (h : (∃ m, r = createSuccessResult m) ∨ ∃ m e w, r = createFailureResult m e w) :
    r.success = true → r.errors = none := by
  rcases h with ⟨m, rfl⟩ | ⟨m, e, w, rfl⟩
  · intro _
    rfl
  · intro hs
    simp [createFailureResult] at hs

/-- Lemma: `validateDevContainerConfig` only ever returns constructor-built
results. -/
theorem validateDevContainerConfig_ctor (env : PipelineEnv) :
    (∃ m, validateDevContainerConfig env = createSuccessResult m) ∨
      ∃ m e w, validateDevContainerConfig env = createFailureResult m e w := by
  unfold validateDevContainerConfig
  dsimp only
  repeat' split
  all_goals first
    | exact Or.inl ⟨_, rfl⟩
    | exact Or.inr ⟨_, _, _, rfl⟩

/-- Lemma: `validateDockerEnvironment` only ever returns constructor-built
results. -/
theorem validateDockerEnvironment_ctor (dockerAvailable : Bool) :
    (∃ m, validateDockerEnvironment dockerAvailable = createSuccessResult m) ∨
      ∃ m e w, validateDockerEnvironment dockerAvailable = createFailureResult m e w := by
  unfold validateDockerEnvironment
  split
  · exact Or.inr ⟨_, _, _, rfl⟩
  · exact Or.inl ⟨_, rfl⟩

/-- Lemma: `validateDockerfile` only ever returns constructor-built results. -/
theorem validateDockerfile_ctor (env : PipelineEnv) :
    (∃ m, validateDockerfile env = createSuccessResult m) ∨
      ∃ m e w, validateDockerfile env = createFailureResult m e w := by
  unfold validateDockerfile
  dsimp only
  repeat' split
  all_goals first
    | exact Or.inl ⟨_, rfl⟩
    | exact Or.inr ⟨_, _, _, rfl⟩

/-- Every stage result pushed by steps 4–6 is constructor-built. -/
theorem setupStages456_ctor (env : PipelineEnv) (r : ValidationResult)
    (hr : r ∈ (setupStages456 env).1) :
    (∃ m, r = createSuccessResult m) ∨ ∃ m e w, r = createFailureResult m e w := by
  unfold setupStages456 at hr
  split at hr
  · rcases hb : env.buildOutcome with _ | ⟨prior, msg⟩
    · rw [hb] at hr
      dsimp only at hr
      rcases hc : env.compileOutcome with _ | ⟨cprior, cmsg⟩
      · rw [hc] at hr
        dsimp only at hr
        by_cases ht : (runTests env.testImageExists env.testRun).success = true
        · simp only [ht, if_true, List.mem_cons, List.mem_singleton,
            List.not_mem_nil, or_false] at hr
          rcases hr with rfl | rfl | rfl
          · exact Or.inl ⟨_, rfl⟩
          · exact Or.inl ⟨_, rfl⟩
          · exact Or.inl ⟨_, rfl⟩
        · simp only [ht, if_false, List.mem_cons, List.mem_singleton,
            List.not_mem_nil, or_false] at hr
          rcases hr with rfl | rfl | rfl
          · exact Or.inl ⟨_, rfl⟩
          · exact Or.inl ⟨_, rfl⟩
          · exact Or.inr ⟨_, _, _, rfl⟩
      · rw [hc] at hr
        dsimp only at hr
        simp only [List.mem_cons, List.mem_singleton, List.not_mem_nil, or_false] at hr
        rcases hr with rfl | rfl
        · exact Or.inl ⟨_, rfl⟩
        · exact Or.inr ⟨_, _, _, rfl⟩
    · rw [hb] at hr
      dsimp only at hr
      simp only [List.mem_singleton] at hr
      subst hr
      exact Or.inr ⟨_, _, _, rfl⟩
  · simp at hr

/-- Claim C1 counterexample: in the report of `envC1` (healthy pipeline
whose test run exits zero but whose output contains one `FAIL` token),
the final test-stage result has `success = false` while its `errors` list
is present but empty (`TestResult.errors` is `undefined` on the
counts-based failure path, and `errors?.map(...) || []` turns that into
an empty list) — refuting "success is false iff errors is non-empty". -/
theorem failure_with_empty_errors_counterexample :
    (validateSetup envC1).results.map (fun r => (r.success, r.errors))
      = [(true, none), (true, none), (true, none), (true, none), (true, none),
         (false, some [])] := by
  decide

/-- Claim C1 as amended (proved): `createSuccessResult` always returns
`success = true` with no error list, and `createFailureResult` always
returns `success = false` — so in every `validateSetup` report a
successful result carries no errors; but a failure result's error list
may be empty (see the counterexample), so "success is false iff errors is
non-empty" holds only in the success-to-no-errors direction. -/
theorem result_constructors_and_reports :
    (∀ m, (createSuccessResult m).success = true ∧ (createSuccessResult m).errors = none) ∧
    (∀ m e w, (createFailureResult m e w).success = false) ∧
    (∀ (env : PipelineEnv) (r : ValidationResult),
      r ∈ (validateSetup env).results → r.success = true → r.errors = none) := by
  refine ⟨fun m => ⟨rfl, rfl⟩, fun m e w => rfl, fun env r hr hs => ?_⟩
  have hres : (validateSetup env).results = setupResults env := rfl
  rw [hres] at hr
  unfold setupResults at hr
  rcases List.mem_cons.mp hr with rfl | hr
  · exact succ_no_errors_of_ctor _ (validateDevContainerConfig_ctor env) hs
  rcases List.mem_cons.mp hr with rfl | hr
  · exact succ_no_errors_of_ctor _ (validateDockerEnvironment_ctor env.dockerAvailable) hs
  rcases List.mem_append.mp hr with h3 | h456
  · split at h3
    · rcases List.mem_singleton.mp h3 with rfl
      exact succ_no_errors_of_ctor _ (validateDockerfile_ctor env) hs
    · simp at h3
  · exact succ_no_errors_of_ctor _ (setupStages456_ctor env r h456) hs

/-- Witness for the amended claim C1: in the concrete `envC1` report the
(successful) config-validation result indeed carries no error list. -/
theorem result_constructors_and_reports_witness :
    (validateDevContainerConfig envC1).errors = none :=
  result_constructors_and_reports.2.2 envC1 (validateDevContainerConfig envC1)
    (by decide) (by decide)

/-- Claim C2 counterexample: for `envC2` (config document present and
parsed, none of image/dockerFile/build.dockerfile given, Docker
available), the report contains TWO results — the config failure and the
runtime-availability (Docker environment) result — so the
runtime-availability stage is not absent from the report. -/
theorem runtime_stage_present_counterexample :
    (validateSetup envC2).results.map (fun r => (r.success, r.message))
      = [(false, "DevContainer configuration has errors"),
         (true, "Docker environment is valid")] := by
  decide

/-- Claim C2 as amended (proved): when the config document exists and
parses but names none of image, dockerFile, or build.dockerfile, the
report consists of exactly the config-validation failure (whose error
list contains the CRITICAL `NO_DOCKER_CONFIG` error) followed by the
runtime-availability result, which always runs; the Dockerfile
inspection, build, compile and test stages are absent.  When Docker is
available, the config failure is the report's only CRITICAL result. -/
theorem config_failure_aborts_later_stages (env : PipelineEnv)
    (hex : env.configFileExists = true) (hpar : env.configParses = true)
    (hi : env.config.image = none) (hd : env.config.dockerFile = none)
    (hb : env.config.buildDockerfile = none) :
    (validateSetup env).results
        = [validateDevContainerConfig env,
           validateDockerEnvironment env.dockerAvailable] ∧
    (validateDevContainerConfig env).success = false ∧
    ((validateDevContainerConfig env).errors.getD []).any
        (fun e => e.code == "NO_DOCKER_CONFIG" && e.severity == Severity.critical) = true ∧
    (env.dockerAvailable = true →
      (validateSetup env).results.countP hasCriticalError = 1) := by
  have hcfg : ∃ rest,
      validateDevContainerConfig env
        = createFailureResult "DevContainer configuration has errors"
            (createError "NO_DOCKER_CONFIG"
              "No Docker configuration found (image, dockerFile, or build.dockerfile required)"
              Severity.critical :: rest) none := by
    unfold validateDevContainerConfig
    rw [hex, hpar, hi, hd, hb]
    dsimp only [isTruthy]
    repeat' split
    all_goals simp_all
    all_goals exact ⟨_, rfl⟩
  obtain ⟨rest, hcfg⟩ := hcfg
  have hsucc : (validateDevContainerConfig env).success = false := by
    rw [hcfg]
    rfl
  have hres : (validateSetup env).results
      = [validateDevContainerConfig env, validateDockerEnvironment env.dockerAvailable] := by
    show setupResults env = _
    unfold setupResults setupStages456
    rw [hsucc]
    simp
  refine ⟨hres, hsucc, ?_, fun hdav => ?_⟩
  · rw [hcfg]
    simp [createFailureResult, createError]
    exact Or.inl rfl
  · rw [hres]
    have h1 : hasCriticalError (validateDevContainerConfig env) = true := by
      rw [hcfg]
      simp [hasCriticalError, createFailureResult, createError]
      exact Or.inl rfl
    have h2 : hasCriticalError (validateDockerEnvironment env.dockerAvailable) = false := by
      rw [hdav]
      rfl
    simp [List.countP_cons, h1, h2]

/-- Witness for the amended claim C2 at the concrete `envC2`. -/
theorem config_failure_aborts_later_stages_witness :
    (validateSetup envC2).results
        = [validateDevContainerConfig envC2,
           validateDockerEnvironment envC2.dockerAvailable] ∧
    (validateDevContainerConfig envC2).success = false ∧
    ((validateDevContainerConfig envC2).errors.getD []).any
        (fun e => e.code == "NO_DOCKER_CONFIG" && e.severity == Severity.critical) = true ∧
    (envC2.dockerAvailable = true →
      (validateSetup envC2).results.countP hasCriticalError = 1) :=
  config_failure_aborts_later_stages envC2 rfl rfl rfl rfl rfl

/-- A `filterMap` whose function is a guarded `some` is the map over the
filtered list. -/
theorem filterMap_guard {α β : Type} (p : α → Bool) (g : α → β) (f : α → Option β)
    (hf : ∀ a, f a = if p a then some (g a) else none) (l : List α) :
    l.filterMap f = (l.filter p).map g := by
  induction l with
  | nil => simp
  | cons a l ih =>
    by_cases hp : p a = true <;>
      simp [List.filterMap_cons, List.filter_cons, hf, hp, ih]

/-- Claim C9 (confirmed): provided the documents that exist parse (a
JSON-parse throw routes to the catch-all `CROSS_VALIDATION_ERROR`
instead), the error list of the cross-validation result is exactly one
`MISSING_PRELAUNCH_TASK` error per launch entry whose `preLaunchTask`
reference is dangling — computed against the task label set alone,
independent of any task-document validation, and equal to the empty set
when `tasks.json` is absent — and each such error's message names both
the launch entry and the missing task label (`missingTaskMsg`). -/
theorem crossValidation_dangling_errors (env : CrossEnv)
    (hle : env.launchExists = true) (hlp : env.launchParses = true)
    (htp : env.tasksExists = true → env.tasksParses = true)
    (hsp : env.settingsExists = true → env.settingsParses = true) :
    (performCrossValidation env).errors.getD []
      = ((env.launchConfigs.getD []).filter (isDangling env)).map
          (fun c => createError "MISSING_PRELAUNCH_TASK"
            (missingTaskMsg c.name (c.preLaunchTask.getD "")) Severity.error) := by
  have herrs : crossValidationErrors env
      = ((env.launchConfigs.getD []).filter (isDangling env)).map
          (fun c => createError "MISSING_PRELAUNCH_TASK"
            (missingTaskMsg c.name (c.preLaunchTask.getD "")) Severity.error) := by
    unfold crossValidationErrors
    rw [hle]
    simp only [if_true]
    refine filterMap_guard (isDangling env) _ _ (fun c => ?_) _
    rcases hc : c.preLaunchTask with _ | p <;> simp [isDangling, hc]
  have hcatch : ((env.launchExists && !env.launchParses)
      || (env.launchExists && env.tasksExists && !env.tasksParses)
      || (env.settingsExists && !env.settingsParses)) = false := by
    rw [hle, hlp]
    cases hte : env.tasksExists
    · cases hse : env.settingsExists
      · rfl
      · rw [hsp hse]
        rfl
    · rw [htp hte]
      cases hse : env.settingsExists
      · rfl
      · rw [hsp hse]
        rfl
  unfold performCrossValidation
  rw [hcatch, if_neg (by simp : ¬(false = true))]
  dsimp only
  by_cases hn : crossValidationErrors env = []
  · rw [if_pos hn, ← herrs, hn]
    rfl
  · rw [if_neg hn, ← herrs]
    rfl

/-- Witness for claim C9 at the concrete `envC9`: one dangling
`preLaunchTask` reference, no `tasks.json`, exactly one error naming the
entry `Debug` and the missing label `build`. -/
theorem crossValidation_dangling_errors_witness :
    (performCrossValidation envC9).errors.getD []
      = [createError "MISSING_PRELAUNCH_TASK" (missingTaskMsg "Debug" "build")
          Severity.error] := by
  have h := crossValidation_dangling_errors envC9 rfl rfl (fun _ => rfl) (fun _ => rfl)
  rw [h]
  decide
